import Mathlib

/-!
Shallow embedding of the sales-forecasting core of the
Inventory-Management-System repository (`inventory_app/forecast.py` and the
`SalesForecast` model of `inventory_app/models.py`).

Dates are modelled as integers counting calendar days; `today` is a
parameter.  Calendar facts (weekday, day of month, month) are library
functions in the source (`datetime` / pandas), so they are abstracted as a
`Calendar` parameter.  Quantities aggregate to naturals, prices and feature
values are rationals.  The fitted scikit-learn pipeline
(`scaler.transform` followed by `model.predict`) is abstracted as a
function `modelFn` from the raw 10-entry feature vector to a rational raw
prediction; no claim constrains its numeric value.  Python's `int()`
truncates toward zero, modelled by `pytrunc`.
-/

/-- Calendar fact functions of a day number, abstracting
`date.weekday()` / `date.day` / `date.month` (Monday = 0 convention). -/
structure Calendar where
  dayOfWeek : ℤ → ℕ
  dayOfMonth : ℤ → ℕ
  month : ℤ → ℕ

/-- One row of the `Sale` table restricted to the fields the forecaster
reads: the owning item, the calendar day of `timestamp`, `quantity`,
`total_price`. -/
structure SaleEvent where
  item_id : ℕ
  day : ℤ
  quantity : ℕ
  total_price : ℚ
deriving DecidableEq

/-- One row of the gap-filled daily DataFrame produced by
`prepare_historical_data`: date index, `daily_quantity`, `daily_revenue`,
`sales_count`. -/
structure DailyRow where
  date : ℤ
  daily_quantity : ℕ
  daily_revenue : ℚ
  sales_count : ℕ
deriving DecidableEq

instance : Inhabited DailyRow := ⟨⟨0, 0, 0, 0⟩⟩

/-- Membership test for the lookback window
`start_date ≤ day ≤ end_date` used by the `Sale.objects.filter` call. -/
def inWindow (today : ℤ) (days_back : ℕ) (e : SaleEvent) : Bool :=
  decide (today - (days_back : ℤ) ≤ e.day) && decide (e.day ≤ today)

/-- Daily aggregate row for day `d`: sum of quantities, sum of totals and
event count over the item's sales on that day (the `annotate` aggregation,
with `reindex`'s zero fill falling out when no event matches). -/
def dailyRowAt (sales : List SaleEvent) (item_id : ℕ) (d : ℤ) : DailyRow :=
  let evs := sales.filter (fun e => e.item_id == item_id && e.day == d)
  { date := d
    daily_quantity := (evs.map (·.quantity)).sum
    daily_revenue := (evs.map (·.total_price)).sum
    sales_count := evs.length }

/-- Embedding of `SalesForecastService.prepare_historical_data`: filter the
item's sales to the window ending today and starting `days_back` days
earlier, return `none` when no event falls in the window, otherwise one
aggregated row per calendar day of the window (gap days filled with
zeros), ascending by date. -/
def prepare_historical_data (sales : List SaleEvent) (item_id : ℕ)
    (today : ℤ) (days_back : ℕ) : Option (List DailyRow) :=
  let filtered := sales.filter
    (fun e => e.item_id == item_id && inWindow today days_back e)
  if filtered.isEmpty then none
  else some ((List.range (days_back + 1)).map
    (fun k : ℕ => dailyRowAt sales item_id (today - (days_back : ℤ) + (k : ℤ))))

/-- One row of the feature DataFrame built by `create_features`; the
original `daily_quantity` column is retained (pandas keeps it), lag
columns are `Option` (NaN = `none`). -/
structure FeatureRow where
  date : ℤ
  daily_quantity : ℚ
  day_of_week : ℕ
  day_of_month : ℕ
  month : ℕ
  is_weekend : ℕ
  qty_7day_avg : ℚ
  qty_14day_avg : ℚ
  qty_30day_avg : ℚ
  qty_lag_1 : Option ℚ
  qty_lag_7 : Option ℚ
  days_since_start : ℕ
deriving DecidableEq

instance : Inhabited FeatureRow := ⟨⟨0, 0, 0, 0, 0, 0, 0, 0, 0, none, none, 0⟩⟩

/-- Trailing rolling mean with `min_periods=1` at position `i` of the
quantity series: the mean of the last `min (i+1) w` values up to and
including position `i` (pandas `rolling(window=w, min_periods=1).mean()`). -/
def rollingMean (qs : List ℚ) (w : ℕ) (i : ℕ) : ℚ :=
  let win := (qs.take (i + 1)).drop (i + 1 - w)
  win.sum / (win.length : ℚ)

/-- Feature row at index `i` of the daily series (see `create_features`). -/
def featureRowAt (cal : Calendar) (df : List DailyRow) (i : ℕ) : FeatureRow :=
  let qs : List ℚ := df.map (fun r => (r.daily_quantity : ℚ))
  let r := df.getD i default
  { date := r.date
    daily_quantity := (r.daily_quantity : ℚ)
    day_of_week := cal.dayOfWeek r.date
    day_of_month := cal.dayOfMonth r.date
    month := cal.month r.date
    is_weekend := if 5 ≤ cal.dayOfWeek r.date then 1 else 0
    qty_7day_avg := rollingMean qs 7 i
    qty_14day_avg := rollingMean qs 14 i
    qty_30day_avg := rollingMean qs 30 i
    qty_lag_1 := if i = 0 then none else qs.get? (i - 1)
    qty_lag_7 := if i < 7 then none else qs.get? (i - 7)
    days_since_start := i }

/-- Embedding of `SalesForecastService.create_features`: one feature row
per day of the series, in order. -/
def create_features (cal : Calendar) (df : List DailyRow) : List FeatureRow :=
  (List.range df.length).map (featureRowAt cal df)

/-- The condition under which `df.dropna()` keeps a row: only the two lag
columns can be NaN (the rolling means use `min_periods=1`). -/
def rowIsClean (r : FeatureRow) : Bool :=
  r.qty_lag_1.isSome && r.qty_lag_7.isSome

/-- The clean training subset `df_clean = df.dropna()`. -/
def clean_feature_rows (cal : Calendar) (df : List DailyRow) : List FeatureRow :=
  (create_features cal df).filter rowIsClean

/-- The regression targets `y = df_clean['daily_quantity']` that
`model.fit` is trained against, one per clean row, in order. -/
def training_targets (cal : Calendar) (df : List DailyRow) : List ℚ :=
  (clean_feature_rows cal df).map (·.daily_quantity)

/-- Modelled from the spec: the targets the spec's Predictor sentence
describes, namely for each clean row the NEXT day's quantity
(quantity at day index `days_since_start + 1` of the same series). -/
def spec_next_day_targets (cal : Calendar) (df : List DailyRow) : List ℚ :=
  (clean_feature_rows cal df).map
    (fun r => ((df.getD (r.days_since_start + 1) default).daily_quantity : ℚ))

/-- Embedding of the control flow of `SalesForecastService.train_model`:
the returned `(success, message)` pair.  The numeric fit itself
(`scaler.fit_transform`, `model.fit`) is opaque and happens exactly on the
`true` path. -/
def train_model (cal : Calendar) (sales : List SaleEvent) (item_id : ℕ)
    (today : ℤ) (days_back : ℕ) : Bool × String :=
  match prepare_historical_data sales item_id today days_back with
  | none => (false, "Insufficient historical data")
  | some df =>
    if df.length < 14 then (false, "Insufficient historical data")
    else if (clean_feature_rows cal df).length < 7 then
      (false, "Insufficient clean data after feature engineering")
    else (true, "Model trained successfully")

/-- Python `int()` applied to a real value: truncation toward zero. -/
def pytrunc (q : ℚ) : ℤ :=
  if 0 ≤ q then ⌊q⌋ else ⌈q⌉

/-- Mean of the trailing `w` entries of the prediction buffer,
`np.mean(last_values[-w:])` (callers guard `w ≤ buf.length`, so the
trailing slice has exactly `w` entries). -/
def lastMean (buf : List ℚ) (w : ℕ) : ℚ :=
  let win := buf.drop (buf.length - w)
  win.sum / (win.length : ℚ)

/-- The raw 10-entry feature vector built for forecast-loop iteration `i`
(lines 143–161 of `forecast.py`), in the fixed column order
`day_of_week, day_of_month, month, is_weekend, qty_7day_avg,
qty_14day_avg, qty_30day_avg, qty_lag_1, qty_lag_7, days_since_start`.
`histLen` is `len(df)` and `buf` the running `last_values` buffer. -/
def predFeatures (cal : Calendar) (today : ℤ) (histLen : ℕ) (i : ℕ)
    (buf : List ℚ) : List ℚ :=
  let d : ℤ := today + 1 + (i : ℤ)
  [ (cal.dayOfWeek d : ℚ),
    (cal.dayOfMonth d : ℚ),
    (cal.month d : ℚ),
    (if 5 ≤ cal.dayOfWeek d then 1 else 0),
    (if 7 ≤ buf.length then lastMean buf 7 else 0),
    (if 14 ≤ buf.length then lastMean buf 14 else 0),
    (if 30 ≤ buf.length then lastMean buf 30 else 0),
    (if 0 < buf.length then (buf.getLast?).getD 0 else 0),
    (if 7 ≤ buf.length then (buf.get? (buf.length - 7)).getD 0 else 0),
    ((histLen + i + 1 : ℕ) : ℚ) ]

/-- One forecast output row (`{'date': ..., 'predicted_quantity': ...}`). -/
structure ForecastPoint where
  date : ℤ
  predicted_quantity : ℤ
deriving DecidableEq

/-- The clamped prediction of iteration `i`:
`max(0, int(self.model.predict(...)))`. -/
def clampedPred (cal : Calendar) (modelFn : List ℚ → ℚ) (today : ℤ)
    (histLen : ℕ) (i : ℕ) (buf : List ℚ) : ℤ :=
  max 0 (pytrunc (modelFn (predFeatures cal today histLen i buf)))

/-- The iterative forecast loop of `predict_sales` (lines 139–174),
carrying the loop index `i` and the growing `last_values` buffer;
`fuel` is the number of remaining iterations. -/
def forecastLoop (cal : Calendar) (modelFn : List ℚ → ℚ) (today : ℤ)
    (histLen : ℕ) : ℕ → ℕ → List ℚ → List ForecastPoint
  | _, 0, _ => []
  | i, fuel + 1, buf =>
    let q := clampedPred cal modelFn today histLen i buf
    { date := today + 1 + (i : ℤ), predicted_quantity := q } ::
      forecastLoop cal modelFn today histLen (i + 1) fuel (buf ++ [(q : ℚ)])

/-- The seed of the `last_values` buffer:
`df.tail(7)['daily_quantity'].values` of the feature DataFrame. -/
def seedBuf (cal : Calendar) (df : List DailyRow) : List ℚ :=
  let feats := create_features cal df
  (feats.map (·.daily_quantity)).drop (feats.length - 7)

/-- Embedding of `SalesForecastService.predict_sales`: the horizon is an
integer (`range(forecast_days)` is empty for a non-positive value). -/
def predict_sales (cal : Calendar) (modelFn : List ℚ → ℚ)
    (sales : List SaleEvent) (item_id : ℕ) (today : ℤ)
    (forecast_days : ℤ) : Option (List ForecastPoint) × String :=
  match prepare_historical_data sales item_id today 90 with
  | none => (none, "No historical data available")
  | some df =>
    let tm := train_model cal sales item_id today 90
    if tm.1 then
      (some (forecastLoop cal modelFn today
              (create_features cal df).length 0 forecast_days.toNat
              (seedBuf cal df)),
       "Predictions generated successfully")
    else (none, tm.2)

/-- The `last_values` buffer as it stands at the start of loop iteration
`i + j`, when the loop was entered at index `i` with buffer `b`: each
iteration appends its clamped prediction
(`last_values = np.append(last_values, predicted_qty)`). -/
def bufIter (cal : Calendar) (modelFn : List ℚ → ℚ) (today : ℤ)
    (histLen : ℕ) (i : ℕ) (b : List ℚ) : ℕ → List ℚ
  | 0 => b
  | j + 1 =>
    let bj := bufIter cal modelFn today histLen i b j
    bj ++ [((clampedPred cal modelFn today histLen (i + j) bj : ℤ) : ℚ)]

/-- Modelled from the spec: the rolling-mean feature the spec describes
for the forecast loop, namely the mean of however many trailing buffered
days exist, up to `w` of them (partial window allowed). -/
def spec_partial_mean (buf : List ℚ) (w : ℕ) : ℚ :=
  let win := buf.drop (buf.length - w)
  win.sum / (win.length : ℚ)

/-- One row of the `InventoryItem` table (only the fields the forecaster
touches). -/
structure Item where
  id : ℕ
  name : String
deriving DecidableEq

/-- One persisted `SalesForecast` row. -/
structure ForecastRecord where
  item_id : ℕ
  forecast_date : ℤ
  predicted_quantity : ℤ
deriving DecidableEq

/-- A `ForecastRecord` matches the `(item, forecast_date)` key. -/
def matchesKey (item_id : ℕ) (d : ℤ) (r : ForecastRecord) : Bool :=
  r.item_id == item_id && r.forecast_date == d

/-- Embedding of
`SalesForecast.objects.update_or_create(item=..., forecast_date=..., defaults=...)`:
update the matching record's `predicted_quantity` when the key is
present, otherwise insert a fresh record. -/
def update_or_create (store : List ForecastRecord) (item_id : ℕ) (d : ℤ)
    (q : ℤ) : List ForecastRecord :=
  if store.any (matchesKey item_id d) then
    store.map (fun r => if matchesKey item_id d r then
      { r with predicted_quantity := q } else r)
  else store ++ [{ item_id := item_id, forecast_date := d, predicted_quantity := q }]

/-- Result of `generate_forecast_for_item` together with the persistent
store after the call. -/
structure GenResult where
  ok : Bool
  message : String
  store : List ForecastRecord
deriving DecidableEq

/-- Embedding of `SalesForecastService.generate_forecast_for_item`:
look the item up, forecast, and upsert every prediction. -/
def generate_forecast_for_item (cal : Calendar) (modelFn : List ℚ → ℚ)
    (items : List Item) (sales : List SaleEvent)
    (store : List ForecastRecord) (item_id : ℕ) (today : ℤ)
    (forecast_days : ℤ) : GenResult :=
  match items.find? (fun it => it.id == item_id) with
  | none => { ok := false, message := "Item not found", store := store }
  | some item =>
    let pr := predict_sales cal modelFn sales item_id today forecast_days
    match pr.1 with
    | none => { ok := false, message := pr.2, store := store }
    | some preds =>
      let store2 := preds.foldl
        (fun s p => update_or_create s item_id p.date p.predicted_quantity) store
      { ok := true
        message := "Generated " ++ toString preds.length ++ " forecasts for "
          ++ item.name
        store := store2 }

/-- Concrete calendar used by the witness instances (weekday as the day
number modulo seven, trivial day-of-month and month). -/
def wcal : Calendar :=
  { dayOfWeek := fun d => (d.emod 7).toNat
    dayOfMonth := fun _ => 1
    month := fun _ => 1 }

/-- Concrete abstract fitted model used by the witness instances. -/
def wfn0 : List ℚ → ℚ := fun _ => 0

/-- Concrete item table used by the witness instances. -/
def witems : List Item := [{ id := 1, name := "Chair" }]

/-- Concrete sales table: item 1 sold five units on day 0. -/
def wsales : List SaleEvent :=
  [{ item_id := 1, day := 0, quantity := 5, total_price := 10 }]

/-- The gap-filled history of item 1 on day 0 with the default 90-day
lookback over `wsales` (91 rows). -/
def wdf : List DailyRow := (prepare_historical_data wsales 1 0 90).getD []

/-- Concrete sales table for the target-alignment instance: item 1 sold
`k` units on day `k` for `k = 1..9`. -/
def wsalesA : List SaleEvent :=
  [{ item_id := 1, day := 1, quantity := 1, total_price := 0 },
   { item_id := 1, day := 2, quantity := 2, total_price := 0 },
   { item_id := 1, day := 3, quantity := 3, total_price := 0 },
   { item_id := 1, day := 4, quantity := 4, total_price := 0 },
   { item_id := 1, day := 5, quantity := 5, total_price := 0 },
   { item_id := 1, day := 6, quantity := 6, total_price := 0 },
   { item_id := 1, day := 7, quantity := 7, total_price := 0 },
   { item_id := 1, day := 8, quantity := 8, total_price := 0 },
   { item_id := 1, day := 9, quantity := 9, total_price := 0 }]

/-- The gap-filled history over `wsalesA` at day 9 with a 9-day lookback:
ten rows with quantities 0,1,...,9. -/
def wdfA : List DailyRow := (prepare_historical_data wsalesA 1 9 9).getD []

/-- Concrete sales table with no event of item 1 anywhere. -/
def wsalesB : List SaleEvent :=
  [{ item_id := 2, day := 0, quantity := 5, total_price := 10 }]

/-! ### Helper lemmas -/

theorem prepare_some_eq {sales : List SaleEvent} {item_id : ℕ} {today : ℤ}
    {days_back : ℕ} {df : List DailyRow}
    (h : prepare_historical_data sales item_id today days_back = some df) :
    df = (List.range (days_back + 1)).map
      (fun k : ℕ => dailyRowAt sales item_id (today - (days_back : ℤ) + (k : ℤ))) := by
  by_cases hf : (sales.filter
      (fun e => e.item_id == item_id && inWindow today days_back e)).isEmpty
  · simp [prepare_historical_data, hf] at h
  · simp [prepare_historical_data, hf] at h
    exact h.symm

theorem rowIsClean_featureRowAt (cal : Calendar) (df : List DailyRow) (i : ℕ)
    (hi : i < df.length) :
    rowIsClean (featureRowAt cal df i) = decide (7 ≤ i) := by
  unfold rowIsClean featureRowAt
  dsimp only
  rcases Nat.lt_or_ge i 7 with h7 | h7
  · have hn : ¬ 7 ≤ i := Nat.not_le.mpr h7
    simp [h7, hn]
  · have h0 : ¬ i = 0 := by omega
    have h7' : ¬ i < 7 := Nat.not_lt.mpr h7
    have d1 : df[i - 1]?.isSome = true := by
      rw [List.getElem?_eq_getElem (by omega)]; rfl
    have d7 : df[i - 7]?.isSome = true := by
      rw [List.getElem?_eq_getElem (by omega)]; rfl
    simp [h0, h7', h7, d1, d7]

theorem clean_range_aux (cal : Calendar) (df : List DailyRow) :
    ∀ m, m ≤ df.length →
      (((List.range m).map (featureRowAt cal df)).filter rowIsClean).length
        = m - 7 := by
  intro m
  induction m with
  | zero => intro _; simp
  | succ k ih =>
    intro hk
    rw [List.range_succ, List.map_append, List.filter_append, List.length_append]
    rw [ih (by omega)]
    have hr : rowIsClean (featureRowAt cal df k) = decide (7 ≤ k) :=
      rowIsClean_featureRowAt cal df k (by omega)
    by_cases h7 : 7 ≤ k
    · simp [List.filter_cons, hr, h7]
      omega
    · simp [List.filter_cons, hr, h7]
      omega

theorem clean_feature_rows_length (cal : Calendar) (df : List DailyRow) :
    (clean_feature_rows cal df).length = df.length - 7 := by
  unfold clean_feature_rows create_features
  exact clean_range_aux cal df df.length le_rfl

theorem train_model_eq {cal : Calendar} {sales : List SaleEvent} {item_id : ℕ}
    {today : ℤ} {days_back : ℕ} {df : List DailyRow}
    (h : prepare_historical_data sales item_id today days_back = some df) :
    train_model cal sales item_id today days_back =
      (if df.length < 14 then (false, "Insufficient historical data")
       else if (clean_feature_rows cal df).length < 7 then
         (false, "Insufficient clean data after feature engineering")
       else (true, "Model trained successfully")) := by
  unfold train_model
  rw [h]

/-! ### Claims -/

/-- C2: for every lookback window length and every item with at least one
sale event in the window (i.e. whenever the Loader returns a series), the
output has exactly `days_back + 1` rows, row `k` carries date
`start + k` (so dates are ascending, contiguous, duplicate-free), and any
day with no underlying sales events carries quantity 0, revenue 0 and
count 0 rather than being omitted. -/
theorem c2_loader_shape (sales : List SaleEvent) (item_id : ℕ) (today : ℤ)
    (days_back : ℕ) (df : List DailyRow)
    (hprep : prepare_historical_data sales item_id today days_back = some df) :
    df.length = days_back + 1 ∧
    (∀ k (hk : k < df.length),
      (df.get ⟨k, hk⟩).date = today - (days_back : ℤ) + (k : ℤ)) ∧
    (∀ k (hk : k < df.length),
      sales.filter (fun e => e.item_id == item_id &&
        e.day == today - (days_back : ℤ) + (k : ℤ)) = [] →
      (df.get ⟨k, hk⟩).daily_quantity = 0 ∧
      (df.get ⟨k, hk⟩).daily_revenue = 0 ∧
      (df.get ⟨k, hk⟩).sales_count = 0) := by
  have hdf := prepare_some_eq hprep
  subst hdf
  refine ⟨by simp, ?_, ?_⟩
  · intro k hk
    have hk' : k < days_back + 1 := by simpa using hk
    simp [List.get_eq_getElem, List.getElem_map, List.getElem_range, dailyRowAt]
  · intro k hk hfil
    have hk' : k < days_back + 1 := by simpa using hk
    simp only [List.get_eq_getElem, List.getElem_map, List.getElem_range,
      dailyRowAt]
    rw [hfil]
    simp

/-- C7: given a gap-filled history, `train_model` fails exactly when the
minimum-data policy is violated (fewer than 14 rows of raw history, or
fewer than 7 rows surviving `dropna`), in which case it reports one of the
two insufficient-data messages; otherwise it fits and reports success. -/
theorem c7_train_minimum_data (cal : Calendar) (sales : List SaleEvent)
    (item_id : ℕ) (today : ℤ) (days_back : ℕ) (df : List DailyRow)
    (hprep : prepare_historical_data sales item_id today days_back = some df) :
    ((train_model cal sales item_id today days_back).1 = false ↔
      df.length < 14 ∨ (clean_feature_rows cal df).length < 7) ∧
    ((train_model cal sales item_id today days_back).1 = false →
      (train_model cal sales item_id today days_back).2 =
        "Insufficient historical data" ∨
      (train_model cal sales item_id today days_back).2 =
        "Insufficient clean data after feature engineering") ∧
    (¬ (df.length < 14 ∨ (clean_feature_rows cal df).length < 7) →
      train_model cal sales item_id today days_back =
        (true, "Model trained successfully")) := by
  rw [train_model_eq hprep]
  by_cases h14 : df.length < 14
  · simp [h14]
  · by_cases h7 : (clean_feature_rows cal df).length < 7
    · simp [h14, h7]
    · simp [h14, h7]

/-- C10: at the default 90-day lookback, whenever the item has at least
one sale in the window the gap-filled series has exactly 91 rows and 84
clean rows, so `train_model` always succeeds there and the only reachable
failure of `predict_sales` is the no-data sentinel. -/
theorem c10_default_lookback_branches (cal : Calendar)
    (modelFn : List ℚ → ℚ) (sales : List SaleEvent) (item_id : ℕ)
    (today : ℤ) (forecast_days : ℤ) :
    (∀ df, prepare_historical_data sales item_id today 90 = some df →
      df.length = 91 ∧ (clean_feature_rows cal df).length = 84 ∧
      train_model cal sales item_id today 90 =
        (true, "Model trained successfully")) ∧
    ((predict_sales cal modelFn sales item_id today forecast_days).1 = none →
      (predict_sales cal modelFn sales item_id today forecast_days).2 =
        "No historical data available") := by
  have key : ∀ df, prepare_historical_data sales item_id today 90 = some df →
      df.length = 91 ∧ (clean_feature_rows cal df).length = 84 ∧
      train_model cal sales item_id today 90 =
        (true, "Model trained successfully") := by
    intro df hdf
    have hlen : df.length = 91 := by
      have h := prepare_some_eq hdf
      subst h; simp
    have hclean : (clean_feature_rows cal df).length = 84 := by
      rw [clean_feature_rows_length, hlen]
    refine ⟨hlen, hclean, ?_⟩
    rw [train_model_eq hdf, hlen, hclean]
    norm_num
  refine ⟨key, ?_⟩
  intro hnone
  cases hdf : prepare_historical_data sales item_id today 90 with
  | none =>
    simp [predict_sales, hdf]
  | some df =>
    have htm := (key df hdf).2.2
    simp [predict_sales, hdf, htm] at hnone

/-- Witness for C2: the concrete one-sale history of item 1 with a 2-day
lookback yields a 3-row series. -/
theorem c2_witness :
    ((prepare_historical_data wsales 1 0 2).getD []).length = 2 + 1 :=
  (c2_loader_shape wsales 1 0 2 ((prepare_historical_data wsales 1 0 2).getD [])
    rfl).1

/-- Witness for C7 at the concrete one-sale history of item 1. -/
theorem c7_witness :
    (train_model wcal wsales 1 0 90).1 = false ↔
      wdf.length < 14 ∨ (clean_feature_rows wcal wdf).length < 7 :=
  (c7_train_minimum_data wcal wsales 1 0 90 wdf rfl).1

/-- Witness for C10 at the concrete one-sale history of item 1. -/
theorem c10_witness :
    wdf.length = 91 ∧ (clean_feature_rows wcal wdf).length = 84 ∧
      train_model wcal wsales 1 0 90 = (true, "Model trained successfully") :=
  (c10_default_lookback_branches wcal wfn0 wsales 1 0 30).1 wdf rfl

theorem get_of_get?_eq {α : Type _} {l : List α} {j : ℕ} {x : α}
    (hj : j < l.length) (h : l.get? j = some x) : l.get ⟨j, hj⟩ = x := by
  rw [List.get?_eq_getElem?, List.getElem?_eq_getElem hj] at h
  simpa [List.get_eq_getElem] using Option.some.inj h

theorem forecastLoop_length (cal : Calendar) (modelFn : List ℚ → ℚ)
    (today : ℤ) (histLen : ℕ) :
    ∀ fuel i buf,
      (forecastLoop cal modelFn today histLen i fuel buf).length = fuel := by
  intro fuel
  induction fuel with
  | zero => intro i buf; rfl
  | succ n ih =>
    intro i buf
    simp only [forecastLoop, List.length_cons]
    rw [ih]

theorem bufIter_shift (cal : Calendar) (modelFn : List ℚ → ℚ) (today : ℤ)
    (histLen : ℕ) :
    ∀ j i b, bufIter cal modelFn today histLen i b (j + 1) =
      bufIter cal modelFn today histLen (i + 1)
        (b ++ [((clampedPred cal modelFn today histLen i b : ℤ) : ℚ)]) j := by
  intro j
  induction j with
  | zero => intro i b; simp [bufIter]
  | succ n ih =>
    intro i b
    have e1 : bufIter cal modelFn today histLen i b (n + 1 + 1) =
        bufIter cal modelFn today histLen i b (n + 1) ++
          [((clampedPred cal modelFn today histLen (i + (n + 1))
              (bufIter cal modelFn today histLen i b (n + 1)) : ℤ) : ℚ)] := rfl
    have e2 : bufIter cal modelFn today histLen (i + 1)
          (b ++ [((clampedPred cal modelFn today histLen i b : ℤ) : ℚ)])
          (n + 1) =
        bufIter cal modelFn today histLen (i + 1)
          (b ++ [((clampedPred cal modelFn today histLen i b : ℤ) : ℚ)]) n ++
          [((clampedPred cal modelFn today histLen (i + 1 + n)
              (bufIter cal modelFn today histLen (i + 1)
                (b ++ [((clampedPred cal modelFn today histLen i b : ℤ) : ℚ)])
                n) : ℤ) : ℚ)] := rfl
    rw [e1, e2, ← ih i b]
    have h : i + (n + 1) = i + 1 + n := by omega
    rw [h]

theorem forecastLoop_get? (cal : Calendar) (modelFn : List ℚ → ℚ)
    (today : ℤ) (histLen : ℕ) :
    ∀ fuel i b j, j < fuel →
      (forecastLoop cal modelFn today histLen i fuel b).get? j =
        some { date := today + 1 + ((i + j : ℕ) : ℤ),
               predicted_quantity := clampedPred cal modelFn today histLen
                 (i + j) (bufIter cal modelFn today histLen i b j) } := by
  intro fuel
  induction fuel with
  | zero => intro i b j hj; omega
  | succ n ih =>
    intro i b j hj
    cases j with
    | zero =>
      simp [forecastLoop, bufIter]
    | succ m =>
      have hm : m < n := by omega
      simp only [forecastLoop]
      rw [List.get?_cons_succ]
      rw [ih (i + 1) _ m hm]
      rw [← bufIter_shift cal modelFn today histLen m i b]
      have h : i + 1 + m = i + (m + 1) := by omega
      rw [h]

theorem predict_sales_some_eq (cal : Calendar) (modelFn : List ℚ → ℚ)
    (sales : List SaleEvent) (item_id : ℕ) (today forecast_days : ℤ)
    (df : List DailyRow)
    (hprep : prepare_historical_data sales item_id today 90 = some df)
    (htm : (train_model cal sales item_id today 90).1 = true) :
    predict_sales cal modelFn sales item_id today forecast_days =
      (some (forecastLoop cal modelFn today (create_features cal df).length 0
        forecast_days.toNat (seedBuf cal df)),
       "Predictions generated successfully") := by
  unfold predict_sales
  rw [hprep]
  simp [htm]

/-- C1: whenever the horizon is positive and training succeeds (the call
returns a forecast), `predict_sales` returns exactly `forecast_days`
points, the `j`-th dated `today + 1 + j` (so dates are consecutive and
strictly increasing starting the day after today), and every
`predicted_quantity` is the raw linear-model output truncated to an
integer and then floored at zero — in particular non-negative. -/
theorem c1_predict_sales_shape (cal : Calendar) (modelFn : List ℚ → ℚ)
    (sales : List SaleEvent) (item_id : ℕ) (today forecast_days : ℤ)
    (df : List DailyRow) (preds : List ForecastPoint) (msg : String)
    (hfd : 0 < forecast_days)
    (hprep : prepare_historical_data sales item_id today 90 = some df)
    (hpred : predict_sales cal modelFn sales item_id today forecast_days
      = (some preds, msg)) :
    (preds.length : ℤ) = forecast_days ∧
    (∀ j (hj : j < preds.length),
      (preds.get ⟨j, hj⟩).date = today + 1 + (j : ℤ)) ∧
    (∀ j (hj : j + 1 < preds.length) (hj2 : j < preds.length),
      (preds.get ⟨j + 1, hj⟩).date = (preds.get ⟨j, hj2⟩).date + 1) ∧
    (∀ j (hj : j < preds.length),
      (preds.get ⟨j, hj⟩).predicted_quantity =
        max 0 (pytrunc (modelFn (predFeatures cal today
          (create_features cal df).length j
          (bufIter cal modelFn today (create_features cal df).length 0
            (seedBuf cal df) j))))) ∧
    (∀ j (hj : j < preds.length),
      0 ≤ (preds.get ⟨j, hj⟩).predicted_quantity) := by
  cases htm : (train_model cal sales item_id today 90).1 with
  | false =>
    have hnone : predict_sales cal modelFn sales item_id today forecast_days =
        (none, (train_model cal sales item_id today 90).2) := by
      unfold predict_sales
      rw [hprep]
      simp [htm]
    rw [hnone] at hpred
    simp at hpred
  | true =>
    have heq := predict_sales_some_eq cal modelFn sales item_id today
      forecast_days df hprep htm
    rw [heq] at hpred
    have hpreds : preds = forecastLoop cal modelFn today
        (create_features cal df).length 0 forecast_days.toNat
        (seedBuf cal df) := by
      have h1 := congrArg Prod.fst hpred
      simpa using h1.symm
    subst hpreds
    have hlen := forecastLoop_length cal modelFn today
      (create_features cal df).length forecast_days.toNat 0 (seedBuf cal df)
    have hget : ∀ j, j < forecast_days.toNat →
        (forecastLoop cal modelFn today (create_features cal df).length 0
          forecast_days.toNat (seedBuf cal df)).get? j =
          some { date := today + 1 + (j : ℤ),
                 predicted_quantity := clampedPred cal modelFn today
                   (create_features cal df).length j
                   (bufIter cal modelFn today (create_features cal df).length
                     0 (seedBuf cal df) j) } := by
      intro j hj
      rw [forecastLoop_get? cal modelFn today (create_features cal df).length
        forecast_days.toNat 0 (seedBuf cal df) j hj]
      norm_num
    refine ⟨?_, ?_, ?_, ?_, ?_⟩
    · rw [hlen]
      exact Int.toNat_of_nonneg (le_of_lt hfd)
    · intro j hj
      rw [get_of_get?_eq hj (hget j (by omega))]
    · intro j hj hj2
      rw [get_of_get?_eq hj (hget (j + 1) (by omega)),
        get_of_get?_eq hj2 (hget j (by omega))]
      push_cast
      ring
    · intro j hj
      rw [get_of_get?_eq hj (hget j (by omega))]
      rfl
    · intro j hj
      rw [get_of_get?_eq hj (hget j (by omega))]
      exact le_max_left 0 _

/-- Witness for C1: a two-day forecast on the concrete one-sale history
returns exactly two points. -/
theorem c1_witness :
    (0 : ℤ) < 2 ∧
    ((((predict_sales wcal wfn0 wsales 1 0 2).1).getD []).length : ℤ) = 2 :=
  ⟨by decide,
   (c1_predict_sales_shape wcal wfn0 wsales 1 0 2 wdf
     (((predict_sales wcal wfn0 wsales 1 0 2).1).getD [])
     ((predict_sales wcal wfn0 wsales 1 0 2).2) (by decide) rfl rfl).1⟩

/-- Counterexample to C6 as stated: with an existing item, a non-empty
history and the non-positive horizon 0, `generate_forecast_for_item` does
NOT return a structured ok=false rejection — it reports ok=true with zero
forecasts and an unchanged store. -/
theorem c6_counterexample :
    (generate_forecast_for_item wcal wfn0 witems wsales [] 1 0 0).ok = true ∧
    (generate_forecast_for_item wcal wfn0 witems wsales [] 1 0 0).message =
      "Generated 0 forecasts for Chair" ∧
    (generate_forecast_for_item wcal wfn0 witems wsales [] 1 0 0).store = [] :=
  ⟨rfl, rfl, rfl⟩

/-- C6 (amended): a non-positive `forecast_days` is not rejected: when the
item exists and the history is sufficient (the prediction step returns a
list), the forecast list is empty and `generate_forecast_for_item`
returns ok=true, writing no records. -/
theorem c6_nonpositive_horizon_not_rejected (cal : Calendar)
    (modelFn : List ℚ → ℚ) (items : List Item) (sales : List SaleEvent)
    (store : List ForecastRecord) (item_id : ℕ) (today forecast_days : ℤ)
    (it : Item) (preds : List ForecastPoint) (msg : String)
    (hfd : forecast_days ≤ 0)
    (hit : items.find? (fun i => i.id == item_id) = some it)
    (hpred : predict_sales cal modelFn sales item_id today forecast_days
      = (some preds, msg)) :
    preds = [] ∧
    (generate_forecast_for_item cal modelFn items sales store item_id today
      forecast_days).ok = true ∧
    (generate_forecast_for_item cal modelFn items sales store item_id today
      forecast_days).store = store := by
  have hto : forecast_days.toNat = 0 := Int.toNat_of_nonpos hfd
  have hpreds : preds = [] := by
    cases hdf : prepare_historical_data sales item_id today 90 with
    | none =>
      have hn : predict_sales cal modelFn sales item_id today forecast_days =
          (none, "No historical data available") := by
        unfold predict_sales
        rw [hdf]
      rw [hn] at hpred
      simp at hpred
    | some df =>
      cases htm : (train_model cal sales item_id today 90).1 with
      | false =>
        have hn : predict_sales cal modelFn sales item_id today forecast_days =
            (none, (train_model cal sales item_id today 90).2) := by
          unfold predict_sales
          rw [hdf]
          simp [htm]
        rw [hn] at hpred
        simp at hpred
      | true =>
        have heq := predict_sales_some_eq cal modelFn sales item_id today
          forecast_days df hdf htm
        rw [heq] at hpred
        have h1 := congrArg Prod.fst hpred
        simp only [hto] at h1
        simp [forecastLoop] at h1
        exact h1
  subst hpreds
  refine ⟨rfl, ?_, ?_⟩ <;>
    simp [generate_forecast_for_item, hit, hpred]

/-- Witness for C6 (amended) at the concrete store and horizon 0. -/
theorem c6_witness :
    (0 : ℤ) ≤ 0 ∧
    (((predict_sales wcal wfn0 wsales 1 0 0).1).getD []
        = ([] : List ForecastPoint) ∧
     (generate_forecast_for_item wcal wfn0 witems wsales [] 1 0 0).ok = true ∧
     (generate_forecast_for_item wcal wfn0 witems wsales [] 1 0 0).store
        = []) :=
  ⟨by decide,
   c6_nonpositive_horizon_not_rejected wcal wfn0 witems wsales [] 1 0 0
     { id := 1, name := "Chair" }
     (((predict_sales wcal wfn0 wsales 1 0 0).1).getD [])
     ((predict_sales wcal wfn0 wsales 1 0 0).2)
     (by decide) rfl rfl⟩

/-- C8: when the item exists but has zero sale events anywhere in the
90-day window, the Loader returns the `none` sentinel (not a fault) and
`generate_forecast_for_item` returns ok=false with the
insufficient-history message, writing nothing: the store is unchanged. -/
theorem c8_no_data_path (cal : Calendar) (modelFn : List ℚ → ℚ)
    (items : List Item) (sales : List SaleEvent)
    (store : List ForecastRecord) (item_id : ℕ) (today forecast_days : ℤ)
    (it : Item)
    (hit : items.find? (fun i => i.id == item_id) = some it)
    (hns : sales.filter
      (fun e => e.item_id == item_id && inWindow today 90 e) = []) :
    prepare_historical_data sales item_id today 90 = none ∧
    (generate_forecast_for_item cal modelFn items sales store item_id today
      forecast_days).ok = false ∧
    (generate_forecast_for_item cal modelFn items sales store item_id today
      forecast_days).message = "No historical data available" ∧
    (generate_forecast_for_item cal modelFn items sales store item_id today
      forecast_days).store = store := by
  have hprep : prepare_historical_data sales item_id today 90 = none := by
    simp [prepare_historical_data, hns]
  have hpred : predict_sales cal modelFn sales item_id today forecast_days =
      (none, "No historical data available") := by
    unfold predict_sales
    rw [hprep]
  refine ⟨hprep, ?_, ?_, ?_⟩ <;>
    simp [generate_forecast_for_item, hit, hpred]

/-- Witness for C8: item 1 exists but only item 2 ever sold. -/
theorem c8_witness :
    witems.find? (fun i => i.id == 1) = some { id := 1, name := "Chair" } ∧
    wsalesB.filter (fun e => e.item_id == 1 && inWindow 0 90 e) = [] ∧
    (prepare_historical_data wsalesB 1 0 90 = none ∧
     (generate_forecast_for_item wcal wfn0 witems wsalesB [] 1 0 30).ok
        = false ∧
     (generate_forecast_for_item wcal wfn0 witems wsalesB [] 1 0 30).message
        = "No historical data available" ∧
     (generate_forecast_for_item wcal wfn0 witems wsalesB [] 1 0 30).store
        = []) :=
  ⟨rfl, rfl,
   c8_no_data_path wcal wfn0 witems wsalesB [] 1 0 30
     { id := 1, name := "Chair" } rfl rfl⟩

theorem mem_create_features_eq (cal : Calendar) (df : List DailyRow)
    (r : FeatureRow) (h : r ∈ create_features cal df) :
    r.daily_quantity =
      ((df.getD r.days_since_start default).daily_quantity : ℚ) := by
  unfold create_features at h
  rcases List.mem_map.mp h with ⟨i, _, hr⟩
  subst hr
  simp [featureRowAt]

/-- Counterexample to C3 as stated: on a concrete ten-day history with
quantities 0,1,...,9, the code's regression targets are the clean rows'
OWN daily quantities (the first clean row is day 7 and its target is 7),
not the next day's quantity (8): the two target lists differ. -/
theorem c3_counterexample :
    training_targets wcal wdfA ≠ spec_next_day_targets wcal wdfA ∧
    (training_targets wcal wdfA).getD 0 0 = 7 ∧
    (spec_next_day_targets wcal wdfA).getD 0 0 = 8 :=
  ⟨by decide, by decide, by decide⟩

/-- C3 (amended): during fit the regression target attached to each clean
training row at day `d` is day `d`'s own quantity (the `y` vector is the
clean rows' `daily_quantity` column), not the quantity of day `d + 1`. -/
theorem c3_same_day_targets (cal : Calendar) (df : List DailyRow) (i : ℕ)
    (hi : i < (clean_feature_rows cal df).length) :
    (training_targets cal df).get? i =
      some ((df.getD
        ((clean_feature_rows cal df).getD i default).days_since_start
        default).daily_quantity : ℚ) := by
  have hmem : (clean_feature_rows cal df).getD i default ∈
      clean_feature_rows cal df := by
    rw [List.getD_eq_getElem _ _ hi]
    exact List.getElem_mem hi
  have hq := mem_create_features_eq cal df _ (List.mem_of_mem_filter hmem)
  unfold training_targets
  rw [List.get?_map, List.get?_eq_getElem?, List.getElem?_eq_getElem hi]
  rw [List.getD_eq_getElem _ _ hi] at hq
  simp [hq, List.getElem?_eq_getElem hi]

/-- Witness for C3 (amended) on the concrete ten-day history. -/
theorem c3_witness :
    0 < (clean_feature_rows wcal wdfA).length ∧
    (training_targets wcal wdfA).get? 0 =
      some ((wdfA.getD
        ((clean_feature_rows wcal wdfA).getD 0 default).days_since_start
        default).daily_quantity : ℚ) :=
  ⟨by decide, c3_same_day_targets wcal wdfA 0 (by decide)⟩

/-- Counterexample to C4 as stated: at the first forecast day of the
concrete run the buffer holds the 7 trailing history days (six zero days
and one day of quantity 5); the code's 14-day rolling feature is the
constant 0, while the partial-window mean of the available buffered days
that the claim describes is 5/7 ≠ 0. -/
theorem c4_counterexample :
    (seedBuf wcal wdf).length = 7 ∧
    (predFeatures wcal 0 (create_features wcal wdf).length 0
      (seedBuf wcal wdf)).getD 5 0 = 0 ∧
    spec_partial_mean (seedBuf wcal wdf) 14 = 5 / 7 ∧
    ((0 : ℚ) ≠ 5 / 7) := by
  have hbuf : seedBuf wcal wdf = [0, 0, 0, 0, 0, 0, 5] := by decide
  refine ⟨by decide, by decide, ?_, by norm_num⟩
  rw [hbuf]
  norm_num [spec_partial_mean]

/-- C4 (amended): in the forecast loop the 7-, 14- and 30-day rolling
features are NOT partial-window means: each equals the mean (sum divided
by the window length) of the trailing `w` buffered values when at least
`w` are buffered, and is the constant 0 otherwise; the running buffer
starts from the seed and grows by each clamped prediction. -/
theorem c4_forecast_rolling_features (cal : Calendar)
    (modelFn : List ℚ → ℚ) (today : ℤ) (histLen i j : ℕ)
    (seed buf : List ℚ) :
    ((predFeatures cal today histLen i buf).getD 4 0 =
      if 7 ≤ buf.length then
        (buf.drop (buf.length - 7)).sum / (7 : ℚ) else 0) ∧
    ((predFeatures cal today histLen i buf).getD 5 0 =
      if 14 ≤ buf.length then
        (buf.drop (buf.length - 14)).sum / (14 : ℚ) else 0) ∧
    ((predFeatures cal today histLen i buf).getD 6 0 =
      if 30 ≤ buf.length then
        (buf.drop (buf.length - 30)).sum / (30 : ℚ) else 0) ∧
    bufIter cal modelFn today histLen i seed 0 = seed ∧
    bufIter cal modelFn today histLen i seed (j + 1) =
      bufIter cal modelFn today histLen i seed j ++
        [((clampedPred cal modelFn today histLen (i + j)
            (bufIter cal modelFn today histLen i seed j) : ℤ) : ℚ)] := by
  have e4 : (predFeatures cal today histLen i buf).getD 4 0 =
      (if 7 ≤ buf.length then lastMean buf 7 else 0) := rfl
  have e5 : (predFeatures cal today histLen i buf).getD 5 0 =
      (if 14 ≤ buf.length then lastMean buf 14 else 0) := rfl
  have e6 : (predFeatures cal today histLen i buf).getD 6 0 =
      (if 30 ≤ buf.length then lastMean buf 30 else 0) := rfl
  refine ⟨?_, ?_, ?_, rfl, rfl⟩
  · rw [e4]
    by_cases h : 7 ≤ buf.length
    · rw [if_pos h, if_pos h]
      simp only [lastMean]
      have hlen : (buf.drop (buf.length - 7)).length = 7 := by
        rw [List.length_drop]; omega
      rw [hlen]
      norm_num
    · rw [if_neg h, if_neg h]
  · rw [e5]
    by_cases h : 14 ≤ buf.length
    · rw [if_pos h, if_pos h]
      simp only [lastMean]
      have hlen : (buf.drop (buf.length - 14)).length = 14 := by
        rw [List.length_drop]; omega
      rw [hlen]
      norm_num
    · rw [if_neg h, if_neg h]
  · rw [e6]
    by_cases h : 30 ≤ buf.length
    · rw [if_pos h, if_pos h]
      simp only [lastMean]
      have hlen : (buf.drop (buf.length - 30)).length = 30 := by
        rw [List.length_drop]; omega
      rw [hlen]
      norm_num
    · rw [if_neg h, if_neg h]

/-- Counterexample to C5 as stated: with the concrete 91-day history
(n = 91 days, historical indices 0..90), the day-index fed to the model
on the first forecast day is 92 = n + 1, not the claimed n = 91: the
transition into the horizon does not increase by exactly 1. -/
theorem c5_counterexample :
    (create_features wcal wdf).length = 91 ∧
    (predFeatures wcal 0 (create_features wcal wdf).length 0
      (seedBuf wcal wdf)).getD 9 0 = 92 ∧
    ((92 : ℚ) ≠ 91) :=
  ⟨by decide, by decide, by norm_num⟩

/-- C5 (amended): the day-index is 0-based and increases by exactly one
per day within the historical series (`days_since_start` of row `i` is
`i`, for indices 0..n-1), and within the forecast loop day `i` receives
index `n + i + 1`; consecutive forecast days differ by one, but the first
forecast day receives `n + 1`, so index `n` is skipped at the transition
into the horizon. -/
theorem c5_day_index (cal : Calendar) (df : List DailyRow) (today : ℤ)
    (histLen i : ℕ) (buf : List ℚ) :
    ((create_features cal df).map (·.days_since_start))
        = List.range df.length ∧
    (predFeatures cal today histLen i buf).getD 9 0
        = ((histLen + i + 1 : ℕ) : ℚ) := by
  constructor
  · unfold create_features
    rw [List.map_map]
    have hfun : ((fun r : FeatureRow => r.days_since_start) ∘
        featureRowAt cal df) = fun k : ℕ => k := by
      funext k
      simp [featureRowAt]
    rw [hfun]
    simp
  · rfl

theorem any_update_or_create (s : List ForecastRecord) (item_id : ℕ)
    (d d' : ℤ) (q : ℤ) (h : s.any (matchesKey item_id d) = true) :
    (update_or_create s item_id d' q).any (matchesKey item_id d) = true := by
  unfold update_or_create
  by_cases hp : s.any (matchesKey item_id d') = true
  · rw [if_pos hp, List.any_map]
    have hfun : ∀ r : ForecastRecord,
        matchesKey item_id d (if matchesKey item_id d' r then
          { r with predicted_quantity := q } else r) =
          matchesKey item_id d r := by
      intro r
      by_cases hc : matchesKey item_id d' r
      · rw [if_pos hc]
        simp [matchesKey]
      · rw [if_neg hc]
    rcases List.any_eq_true.mp h with ⟨r, hr, hm⟩
    exact List.any_eq_true.mpr ⟨r, hr, by simpa [Function.comp, hfun r] using hm⟩
  · rw [if_neg hp]
    simp only [List.any_append]
    rw [h]
    rfl

theorem any_update_or_create_self (s : List ForecastRecord) (item_id : ℕ)
    (d : ℤ) (q : ℤ) :
    (update_or_create s item_id d q).any (matchesKey item_id d) = true := by
  unfold update_or_create
  by_cases hp : s.any (matchesKey item_id d) = true
  · rw [if_pos hp]
    rcases List.any_eq_true.mp hp with ⟨r, hr, hm⟩
    refine List.any_eq_true.mpr ⟨_, List.mem_map_of_mem _ hr, ?_⟩
    rw [if_pos hm]
    simpa [matchesKey] using hm
  · rw [if_neg hp]
    simp [List.any_append, matchesKey]

theorem length_update_or_create (s : List ForecastRecord) (item_id : ℕ)
    (d : ℤ) (q : ℤ) (h : s.any (matchesKey item_id d) = true) :
    (update_or_create s item_id d q).length = s.length := by
  unfold update_or_create
  rw [if_pos h, List.length_map]

theorem any_foldl_upsert (item_id : ℕ) (d : ℤ) :
    ∀ (preds : List ForecastPoint) (store : List ForecastRecord),
      store.any (matchesKey item_id d) = true →
      (preds.foldl (fun s p => update_or_create s item_id p.date
        p.predicted_quantity) store).any (matchesKey item_id d) = true := by
  intro preds
  induction preds with
  | nil => intro store h; simpa using h
  | cons p ps ih =>
    intro store h
    simp only [List.foldl_cons]
    exact ih _ (any_update_or_create _ _ _ _ _ h)

theorem all_keys_after_foldl (item_id : ℕ) :
    ∀ (preds : List ForecastPoint) (store : List ForecastRecord)
      (p : ForecastPoint), p ∈ preds →
      (preds.foldl (fun s p => update_or_create s item_id p.date
        p.predicted_quantity) store).any (matchesKey item_id p.date)
        = true := by
  intro preds
  induction preds with
  | nil => intro store p hp; exact absurd hp (List.not_mem_nil p)
  | cons q ps ih =>
    intro store p hp
    simp only [List.foldl_cons]
    rcases List.mem_cons.mp hp with h | h
    · subst h
      exact any_foldl_upsert item_id p.date ps _
        (any_update_or_create_self _ _ _ _)
    · exact ih _ p h

theorem length_foldl_upsert (item_id : ℕ) :
    ∀ (preds : List ForecastPoint) (store : List ForecastRecord),
      (∀ p ∈ preds, store.any (matchesKey item_id p.date) = true) →
      (preds.foldl (fun s p => update_or_create s item_id p.date
        p.predicted_quantity) store).length = store.length := by
  intro preds
  induction preds with
  | nil => intro store _; rfl
  | cons q ps ih =>
    intro store h
    simp only [List.foldl_cons]
    have hs : ∀ p ∈ ps, (update_or_create store item_id q.date
        q.predicted_quantity).any (matchesKey item_id p.date) = true := by
      intro p hp
      exact any_update_or_create _ _ _ _ _ (h p (List.mem_cons_of_mem _ hp))
    rw [ih _ hs,
      length_update_or_create _ _ _ _ (h q (List.mem_cons_self _ _))]

/-- C9: persistence is an upsert keyed by (item, forecast_date): a second
`generate_forecast_for_item` call with identical inputs finds every
(item, date) key written by the first call already present and overwrites
it instead of appending, so the stored record count after the second call
equals the count after the first. -/
theorem c9_upsert_idempotent_count (cal : Calendar) (modelFn : List ℚ → ℚ)
    (items : List Item) (sales : List SaleEvent)
    (store : List ForecastRecord) (item_id : ℕ) (today forecast_days : ℤ) :
    ((generate_forecast_for_item cal modelFn items sales
        (generate_forecast_for_item cal modelFn items sales store item_id
          today forecast_days).store
        item_id today forecast_days).store).length =
      ((generate_forecast_for_item cal modelFn items sales store item_id
        today forecast_days).store).length := by
  cases hit : items.find? (fun it => it.id == item_id) with
  | none => simp [generate_forecast_for_item, hit]
  | some it =>
    cases hp : (predict_sales cal modelFn sales item_id today
        forecast_days).1 with
    | none => simp [generate_forecast_for_item, hit, hp]
    | some preds =>
      simp only [generate_forecast_for_item, hit, hp]
      exact length_foldl_upsert item_id preds _
        (fun p hp2 => all_keys_after_foldl item_id preds store p hp2)
